import Mathlib

/-!
Shallow embedding of `media/libaaudio/src/core/AudioStreamBuilder.cpp`
(AAudio stream builder: policy resolution, path decision, privacy
inference, create/open with fallback).  Enumerated C types are modelled
as inductive types; the external collaborators (global MMAP policy,
`AudioSystem::getMmapPolicyInfo`, `AAudioStreamParameters::validate`,
the backend `open()` calls) are inputs gathered in an `Env` record.
-/

/-- Result codes used by this file (`aaudio_result_t`).  Named constructors
mirror the `AAUDIO_OK` / `AAUDIO_ERROR_*` constants that appear in
`AudioStreamBuilder.cpp`; `errorCode n` stands for any other code that an
external call (base-class validate, backend open) may return. -/
inductive AAudioResult where
  | ok
  | errorIllegalArgument
  | errorOutOfRange
  | errorNull
  | errorCode (n : Int)
deriving DecidableEq, Repr

/-- `aaudio_direction_t`: `AAUDIO_DIRECTION_INPUT`, `AAUDIO_DIRECTION_OUTPUT`,
or any other integer value (rejected by `builder_createStream`). -/
inductive Direction where
  | input
  | output
  | invalid (code : Int)
deriving DecidableEq, Repr

/-- `aaudio_sharing_mode_t`. -/
inductive SharingMode where
  | exclusive
  | shared
deriving DecidableEq, Repr

/-- `aaudio_performance_mode_t`: the three known values, or any other
integer (rejected by `validate`). -/
inductive PerformanceMode where
  | none
  | powerSaving
  | lowLatency
  | invalid (code : Int)
deriving DecidableEq, Repr

/-- `aaudio_session_id_t`: `AAUDIO_SESSION_ID_NONE` or a specific id. -/
inductive SessionId where
  | none
  | specific (code : Int)
deriving DecidableEq, Repr

/-- `aaudio_input_preset_t`: the builder only distinguishes
`AAUDIO_INPUT_PRESET_CAMCORDER` and `AAUDIO_INPUT_PRESET_VOICE_COMMUNICATION`
from everything else. -/
inductive InputPreset where
  | camcorder
  | voiceCommunication
  | otherPreset (code : Int)
deriving DecidableEq, Repr

/-- `privacy_sensitive_t` request field (`mPrivacySensitiveReq`):
`PRIVACY_SENSITIVE_DEFAULT` / `_DISABLED` / `_ENABLED`. -/
inductive PrivacySensitiveReq where
  | default
  | disabled
  | enabled
deriving DecidableEq, Repr

/-- `aaudio_policy_t` (legacy): `AAUDIO_UNSPECIFIED`, `AAUDIO_POLICY_NEVER`,
`AAUDIO_POLICY_AUTO`, `AAUDIO_POLICY_ALWAYS`. -/
inductive AaudioPolicy where
  | unspecified
  | never
  | auto
  | always
deriving DecidableEq, Repr

/-- AIDL `android.media.audio.common.AudioMMapPolicy`. -/
inductive AudioMMapPolicy where
  | unspecified
  | never
  | auto
  | always
deriving DecidableEq, Repr

/-- AIDL `AudioMMapPolicyInfo`; only the `mmapPolicy` field is read by
this file (the device field is ignored by `getAAudioPolicy`). -/
structure AudioMMapPolicyInfo where
  mmapPolicy : AudioMMapPolicy
deriving DecidableEq, Repr

/-- The four concrete backend stream classes instantiated by
`builder_createStream`. -/
inductive StreamVariant where
  | internalCapture   -- AudioStreamInternalCapture (MMAP, input)
  | record            -- AudioStreamRecord (legacy, input)
  | internalPlay      -- AudioStreamInternalPlay (MMAP, output)
  | track             -- AudioStreamTrack (legacy, output)
deriving DecidableEq, Repr

/-- `AudioStream::isMMap()`: true for the two `AudioStreamInternal`
variants, false for the legacy variants. -/
def StreamVariant.isMMap : StreamVariant → Bool
  | .internalCapture => true
  | .internalPlay => true
  | .record => false
  | .track => false

/-- The builder / stream-request object: the fields of
`AudioStreamBuilder` (via `AAudioStreamParameters`) that
`AudioStreamBuilder.cpp` reads or writes. -/
structure AudioStreamBuilder where
  direction : Direction
  sharingMode : SharingMode
  performanceMode : PerformanceMode
  sessionId : SessionId
  inputPreset : InputPreset
  privacySensitiveReq : PrivacySensitiveReq
  privacySensitive : Bool
  framesPerDataCallback : Int
deriving DecidableEq, Repr

/-- External collaborators consumed by `build`, gathered as one record:
the process-level policy override, the two policy-info queries
(`none` models a query returning something other than `NO_ERROR`),
the result of the delegated `AAudioStreamParameters::validate()` check,
and the outcome of `open()` for each backend variant. -/
structure Env where
  globalPolicy : AaudioPolicy                        -- AudioGlobal_getMMapPolicy()
  defaultQuery : Option (List AudioMMapPolicyInfo)   -- getMmapPolicyInfo(DEFAULT, ...)
  exclusiveQuery : Option (List AudioMMapPolicyInfo) -- getMmapPolicyInfo(EXCLUSIVE, ...)
  baseValidate : AAudioResult                        -- AAudioStreamParameters::validate()
  openResult : StreamVariant → AAudioResult          -- audioStream->open(*this)

/-- `AAUDIO_MMAP_POLICY_DEFAULT` -/
def AAUDIO_MMAP_POLICY_DEFAULT : AaudioPolicy := .never

/-- `AAUDIO_MMAP_EXCLUSIVE_POLICY_DEFAULT` -/
def AAUDIO_MMAP_EXCLUSIVE_POLICY_DEFAULT : AaudioPolicy := .never

def FRAMES_PER_DATA_CALLBACK_MIN : Int := 1

def FRAMES_PER_DATA_CALLBACK_MAX : Int := 1024 * 1024

/-- `AAUDIO_UNSPECIFIED` sentinel for the frames-per-data-callback field. -/
def AAUDIO_UNSPECIFIED : Int := 0

/-- `aidl2legacy_aaudio_policy` (anonymous namespace): unknown AIDL values
fall into the `UNSPECIFIED` default branch. -/
def aidl2legacy_aaudio_policy : AudioMMapPolicy → AaudioPolicy
  | .never => .never
  | .auto => .auto
  | .always => .always
  | .unspecified => .unspecified

/-- `getAAudioPolicy` (anonymous namespace): empty vector yields AUTO;
if any entry's policy differs from entry 0's, yields AUTO; otherwise
converts entry 0's policy. -/
def getAAudioPolicy (policyInfos : List AudioMMapPolicyInfo) : AaudioPolicy :=
  match policyInfos with
  | [] => .auto
  | p0 :: rest =>
    if rest.all (fun p => p.mmapPolicy = p0.mmapPolicy) then
      aidl2legacy_aaudio_policy p0.mmapPolicy
    else .auto

/-- `builder_createStream`: dispatch over {direction} x {tryMMap};
any other direction fails with `AAUDIO_ERROR_ILLEGAL_ARGUMENT`
(modelled as `none`). -/
def builder_createStream (direction : Direction) (tryMMap : Bool) :
    Option StreamVariant :=
  match direction with
  | .input => some (if tryMMap then .internalCapture else .record)
  | .output => some (if tryMMap then .internalPlay else .track)
  | .invalid _ => none

/-- `AudioStreamBuilder::validate()`: the delegated
`AAudioStreamParameters::validate()` result is an input; then the
performance-mode enum check, then the frames-per-data-callback range
check. -/
def validate (baseResult : AAudioResult) (b : AudioStreamBuilder) :
    AAudioResult :=
  if baseResult ≠ .ok then baseResult
  else
    match b.performanceMode with
    | .invalid _ => .errorIllegalArgument
    | _ =>
      if b.framesPerDataCallback ≠ AAUDIO_UNSPECIFIED
          ∧ (b.framesPerDataCallback < FRAMES_PER_DATA_CALLBACK_MIN
             ∨ b.framesPerDataCallback > FRAMES_PER_DATA_CALLBACK_MAX) then
        .errorOutOfRange
      else .ok

/-- Resolution of the general (DEFAULT-axis) MMAP policy, lines 147-158:
the API setting wins; if unspecified, query the system (failure keeps it
unspecified); if still unspecified, fall back to the hard default. -/
def resolveMMapPolicy (env : Env) : AaudioPolicy :=
  let mmapPolicy := env.globalPolicy
  let mmapPolicy :=
    if mmapPolicy = .unspecified then
      match env.defaultQuery with
      | some infos => getAAudioPolicy infos
      | none => .unspecified
    else mmapPolicy
  if mmapPolicy = .unspecified then AAUDIO_MMAP_POLICY_DEFAULT else mmapPolicy

/-- Resolution of the EXCLUSIVE-axis MMAP policy, lines 160-168: query the
system (failure keeps it unspecified); if unspecified, fall back to the
hard default.  No process-level override is consulted on this axis. -/
def resolveExclusiveMMapPolicy (env : Env) : AaudioPolicy :=
  let p :=
    match env.exclusiveQuery with
    | some infos => getAAudioPolicy infos
    | none => .unspecified
  if p = .unspecified then AAUDIO_MMAP_EXCLUSIVE_POLICY_DEFAULT else p

/-- Lines 170-176: downgrade EXCLUSIVE sharing to SHARED when the
exclusive policy is NEVER, writing the corrected mode back into the
builder via `setSharingMode`. -/
def applySharingDowngrade (env : Env) (b : AudioStreamBuilder) :
    AudioStreamBuilder :=
  if b.sharingMode = .exclusive ∧ resolveExclusiveMMapPolicy env = .never then
    { b with sharingMode := .shared }
  else b

/-- Lines 178-193: `allowMMap` starts from the general policy and is
forced off when performance mode is not LOW_LATENCY or a session id is
requested. -/
def allowMMapOf (env : Env) (b : AudioStreamBuilder) : Bool :=
  let allowMMap := resolveMMapPolicy env ≠ .never
  let allowMMap :=
    if b.performanceMode ≠ .lowLatency then false else allowMMap
  if b.sessionId ≠ .none then false else allowMMap

/-- Line 179: `allowLegacy = mmapPolicy != AAUDIO_POLICY_ALWAYS`. -/
def allowLegacyOf (env : Env) : Bool := resolveMMapPolicy env ≠ .always

/-- Lines 200-211: reset the privacy flag to false, then set it from the
request field and (when unspecified) the input preset. -/
def applyPrivacy (b : AudioStreamBuilder) : AudioStreamBuilder :=
  let b := { b with privacySensitive := false }
  if b.privacySensitiveReq = .default then
    if b.inputPreset = .camcorder ∨ b.inputPreset = .voiceCommunication then
      { b with privacySensitive := true }
    else b
  else if b.privacySensitiveReq = .enabled then
    { b with privacySensitive := true }
  else b

/-- Observable events of one `build` call: stream creations and open
attempts, in program order. -/
inductive Event where
  | created (v : StreamVariant)
  | openAttempt (v : StreamVariant) (r : AAudioResult)
deriving DecidableEq, Repr

/-- Outcome of one `build` call: the returned result code, the builder
object as the caller observes it afterwards (two fields may have been
written), the variant behind the returned handle on success, and the
event trace. -/
structure BuildOutput where
  result : AAudioResult
  req : AudioStreamBuilder
  handle : Option StreamVariant
  events : List Event
deriving DecidableEq, Repr

/-- Lines 213-235: create the first stream (MMAP when allowed), open it;
on open failure of an MMAP stream with legacy allowed, create and open
the legacy stream once; no further retry. -/
def openWithFallback (env : Env) (b : AudioStreamBuilder)
    (allowMMap allowLegacy : Bool) : BuildOutput :=
  match builder_createStream b.direction allowMMap with
  | none => ⟨.errorIllegalArgument, b, none, []⟩
  | some v1 =>
    let r1 := env.openResult v1
    let ev1 := [Event.created v1, Event.openAttempt v1 r1]
    if r1 = .ok then ⟨.ok, b, some v1, ev1⟩
    else if v1.isMMap ∧ allowLegacy then
      match builder_createStream b.direction false with
      | none => ⟨.errorIllegalArgument, b, none, ev1⟩
      | some v2 =>
        let r2 := env.openResult v2
        let ev := ev1 ++ [Event.created v2, Event.openAttempt v2 r2]
        if r2 = .ok then ⟨.ok, b, some v2, ev⟩
        else ⟨r2, b, none, ev⟩
    else ⟨r1, b, none, ev1⟩

/-- `AudioStreamBuilder::build` after the null-pointer check and
`validate`: policy resolution, sharing downgrade, path gating,
no-backend check, privacy inference, create/open with fallback. -/
def buildCore (env : Env) (b : AudioStreamBuilder) : BuildOutput :=
  let b1 := applySharingDowngrade env b
  let allowMMap := allowMMapOf env b1
  let allowLegacy := allowLegacyOf env
  if allowMMap = false ∧ allowLegacy = false then
    ⟨.errorIllegalArgument, b1, none, []⟩
  else
    let b2 := applyPrivacy b1
    openWithFallback env b2 allowMMap allowLegacy

/-- `AudioStreamBuilder::build(AudioStream** streamPtr)`.  `ptrNull`
models `streamPtr == nullptr`. -/
def build (ptrNull : Bool) (env : Env) (b : AudioStreamBuilder) :
    BuildOutput :=
  if ptrNull then ⟨.errorNull, b, none, []⟩
  else
    let vres := validate env.baseValidate b
    if vres ≠ .ok then ⟨vres, b, none, []⟩
    else buildCore env b

/-! ## Helper lemmas -/

theorem applySharingDowngrade_direction (env : Env) (b : AudioStreamBuilder) :
    (applySharingDowngrade env b).direction = b.direction := by
  unfold applySharingDowngrade; split <;> rfl

theorem applySharingDowngrade_performanceMode (env : Env)
    (b : AudioStreamBuilder) :
    (applySharingDowngrade env b).performanceMode = b.performanceMode := by
  unfold applySharingDowngrade; split <;> rfl

theorem applySharingDowngrade_sessionId (env : Env) (b : AudioStreamBuilder) :
    (applySharingDowngrade env b).sessionId = b.sessionId := by
  unfold applySharingDowngrade; split <;> rfl

theorem applySharingDowngrade_inputPreset (env : Env)
    (b : AudioStreamBuilder) :
    (applySharingDowngrade env b).inputPreset = b.inputPreset := by
  unfold applySharingDowngrade; split <;> rfl

theorem applySharingDowngrade_privacyReq (env : Env)
    (b : AudioStreamBuilder) :
    (applySharingDowngrade env b).privacySensitiveReq
      = b.privacySensitiveReq := by
  unfold applySharingDowngrade; split <;> rfl

theorem applySharingDowngrade_privacySensitive (env : Env)
    (b : AudioStreamBuilder) :
    (applySharingDowngrade env b).privacySensitive = b.privacySensitive := by
  unfold applySharingDowngrade; split <;> rfl

/-- Pure recomputation of the privacy flag from the request field and the
input preset, as lines 200-211 perform it. -/
def privacyFromReqAndPreset (r : PrivacySensitiveReq) (p : InputPreset) :
    Bool :=
  match r with
  | .default => p = .camcorder ∨ p = .voiceCommunication
  | .enabled => true
  | .disabled => false

theorem applyPrivacy_privacySensitive (b : AudioStreamBuilder) :
    (applyPrivacy b).privacySensitive
      = privacyFromReqAndPreset b.privacySensitiveReq b.inputPreset := by
  unfold applyPrivacy privacyFromReqAndPreset
  cases h : b.privacySensitiveReq <;> simp [h] <;> split <;> simp_all

theorem applyPrivacy_sharingMode (b : AudioStreamBuilder) :
    (applyPrivacy b).sharingMode = b.sharingMode := by
  unfold applyPrivacy
  cases h : b.privacySensitiveReq <;> simp [h] <;> split <;> simp_all

theorem applyPrivacy_direction (b : AudioStreamBuilder) :
    (applyPrivacy b).direction = b.direction := by
  unfold applyPrivacy
  cases h : b.privacySensitiveReq <;> simp [h] <;> split <;> simp_all

theorem openWithFallback_req (env : Env) (b : AudioStreamBuilder)
    (am al : Bool) :
    (openWithFallback env b am al).req = b := by
  unfold openWithFallback
  cases h1 : builder_createStream b.direction am with
  | none => rfl
  | some v1 =>
    dsimp only
    split
    · rfl
    · split
      · cases h2 : builder_createStream b.direction false with
        | none => rfl
        | some v2 => dsimp only; split <;> rfl
      · rfl

theorem build_past_checks (env : Env) (b : AudioStreamBuilder)
    (hval : validate env.baseValidate b = .ok)
    (hback : ¬(allowMMapOf env (applySharingDowngrade env b) = false
               ∧ allowLegacyOf env = false)) :
    build false env b
      = openWithFallback env (applyPrivacy (applySharingDowngrade env b))
          (allowMMapOf env (applySharingDowngrade env b))
          (allowLegacyOf env) := by
  unfold build buildCore
  rw [hval]
  simp [hback]

/-! ## Claim theorems -/

/-- C5: the policy-info reduction is pure and deterministic: an empty list
reduces to AUTO; a non-empty list whose entries all carry disposition `d`
reduces to (the legacy image of) `d`, and that image is `d` itself for each
of the four dispositions; a list containing two differing dispositions
reduces to AUTO. -/
theorem getAAudioPolicy_reduction_spec :
    getAAudioPolicy [] = .auto
    ∧ (∀ (d : AudioMMapPolicy) (l : List AudioMMapPolicyInfo),
        l ≠ [] → (∀ p ∈ l, p.mmapPolicy = d) →
          getAAudioPolicy l = aidl2legacy_aaudio_policy d)
    ∧ (∀ (l : List AudioMMapPolicyInfo) (p q : AudioMMapPolicyInfo),
        p ∈ l → q ∈ l → p.mmapPolicy ≠ q.mmapPolicy →
          getAAudioPolicy l = .auto)
    ∧ aidl2legacy_aaudio_policy .never = .never
    ∧ aidl2legacy_aaudio_policy .auto = .auto
    ∧ aidl2legacy_aaudio_policy .always = .always
    ∧ aidl2legacy_aaudio_policy .unspecified = .unspecified := by
  refine ⟨rfl, ?_, ?_, rfl, rfl, rfl, rfl⟩
  · intro d l hne hall
    match l with
    | [] => exact absurd rfl hne
    | p0 :: rest =>
      have h0 : p0.mmapPolicy = d := hall p0 (List.mem_cons_self _ _)
      have hr : (rest.all fun p => p.mmapPolicy = p0.mmapPolicy) = true := by
        rw [List.all_eq_true]
        intro p hp
        have hpd := hall p (List.mem_cons_of_mem _ hp)
        simp [hpd, h0]
      have hred : getAAudioPolicy (p0 :: rest)
          = aidl2legacy_aaudio_policy p0.mmapPolicy := by
        simp [getAAudioPolicy, hr]
      rw [hred, h0]
  · intro l p q hp hq hne
    match l with
    | [] => exact absurd hp (List.not_mem_nil p)
    | p0 :: rest =>
      have hnotall :
          ¬ ((rest.all fun x => x.mmapPolicy = p0.mmapPolicy) = true) := by
        intro hall
        have hmem : ∀ x ∈ p0 :: rest, x.mmapPolicy = p0.mmapPolicy := by
          intro x hx
          rcases List.mem_cons.mp hx with h | h
          · rw [h]
          · have := List.all_eq_true.mp hall x h
            simpa using this
        exact hne ((hmem p hp).trans (hmem q hq).symm)
      simp [getAAudioPolicy, hnotall]

/-- Witness for C5 at the spec's example list `[never, never, always]`. -/
theorem getAAudioPolicy_reduction_spec_witness :
    getAAudioPolicy [⟨.never⟩, ⟨.never⟩, ⟨.always⟩] = .auto :=
  getAAudioPolicy_reduction_spec.2.2.1 [⟨.never⟩, ⟨.never⟩, ⟨.always⟩]
    ⟨.never⟩ ⟨.always⟩ (by decide) (by decide) (by decide)

/-- C9: given that the delegated `AAudioStreamParameters::validate` check
passes, `validate` returns IllegalArgument for an unknown performance
mode; for a known performance mode it returns OutOfRange when
frames-per-callback is specified (not the 0 sentinel) and lies outside
[1, 1048576]; and it returns OK when frames-per-callback is unspecified
or in range. -/
theorem validate_ranges_spec (base : AAudioResult) (b : AudioStreamBuilder)
    (hbase : base = .ok) :
    ((∃ n, b.performanceMode = .invalid n) →
        validate base b = .errorIllegalArgument)
    ∧ ((b.performanceMode = .none ∨ b.performanceMode = .powerSaving
          ∨ b.performanceMode = .lowLatency) →
        b.framesPerDataCallback ≠ AAUDIO_UNSPECIFIED →
        (b.framesPerDataCallback < 1 ∨ b.framesPerDataCallback > 1048576) →
        validate base b = .errorOutOfRange)
    ∧ ((b.performanceMode = .none ∨ b.performanceMode = .powerSaving
          ∨ b.performanceMode = .lowLatency) →
        (b.framesPerDataCallback = AAUDIO_UNSPECIFIED
          ∨ (1 ≤ b.framesPerDataCallback
             ∧ b.framesPerDataCallback ≤ 1048576)) →
        validate base b = .ok) := by
  subst hbase
  refine ⟨?_, ?_, ?_⟩
  · rintro ⟨n, hn⟩
    simp [validate, hn]
  · intro hk hne hout
    have hne0 : ¬ b.framesPerDataCallback = 0 := by
      simpa [AAUDIO_UNSPECIFIED] using hne
    rcases hk with h | h | h <;>
      simp [validate, h, AAUDIO_UNSPECIFIED, FRAMES_PER_DATA_CALLBACK_MIN,
            FRAMES_PER_DATA_CALLBACK_MAX] <;>
      exact ⟨hne0, by omega⟩
  · intro hk hin
    have harith : b.framesPerDataCallback = 0
        ∨ (1 ≤ b.framesPerDataCallback
           ∧ b.framesPerDataCallback ≤ 1048576) := by
      simpa [AAUDIO_UNSPECIFIED] using hin
    rcases hk with h | h | h <;>
      simp [validate, h, AAUDIO_UNSPECIFIED, FRAMES_PER_DATA_CALLBACK_MIN,
            FRAMES_PER_DATA_CALLBACK_MAX] <;>
      omega

/-- Witness for C9: one unknown-performance-mode input, one
out-of-range frames-per-callback input, one passing input. -/
theorem validate_ranges_spec_witness :
    validate .ok ⟨.input, .shared, .invalid 99, .none, .otherPreset 0,
        .default, false, 0⟩ = .errorIllegalArgument
    ∧ validate .ok ⟨.input, .shared, .none, .none, .otherPreset 0,
        .default, false, 2000000⟩ = .errorOutOfRange
    ∧ validate .ok ⟨.input, .shared, .none, .none, .otherPreset 0,
        .default, false, 192⟩ = .ok :=
  ⟨(validate_ranges_spec .ok _ rfl).1 ⟨99, rfl⟩,
   (validate_ranges_spec .ok _ rfl).2.1 (.inl rfl) (by decide) (by decide),
   (validate_ranges_spec .ok _ rfl).2.2 (.inl rfl) (by decide)⟩

/-- C10: on every `build` call that reaches the privacy-inference step
(validation passed, a backend is available), the post-build privacy flag
equals a pure function of the privacy request field and the input preset
alone — in particular it does not depend on the flag's prior value. -/
theorem build_privacy_pure_of_inputs (env : Env) (b : AudioStreamBuilder)
    (hval : validate env.baseValidate b = .ok)
    (hback : ¬(allowMMapOf env (applySharingDowngrade env b) = false
               ∧ allowLegacyOf env = false)) :
    (build false env b).req.privacySensitive
      = privacyFromReqAndPreset b.privacySensitiveReq b.inputPreset := by
  rw [build_past_checks env b hval hback, openWithFallback_req,
      applyPrivacy_privacySensitive, applySharingDowngrade_privacyReq,
      applySharingDowngrade_inputPreset]

/-- An environment with no policy information and every open succeeding:
the general policy resolves to NEVER, so only the legacy path is allowed. -/
def envLegacyOk : Env where
  globalPolicy := .unspecified
  defaultQuery := none
  exclusiveQuery := none
  baseValidate := .ok
  openResult := fun _ => .ok

/-- Witness for C10: the flag starts `true` in the request but the
post-build value is computed afresh from the request field and preset. -/
theorem build_privacy_pure_of_inputs_witness :
    (build false envLegacyOk
        ⟨.output, .shared, .none, .none, .voiceCommunication, .default,
          true, 0⟩).req.privacySensitive
      = privacyFromReqAndPreset .default .voiceCommunication :=
  build_privacy_pure_of_inputs envLegacyOk _ (by decide) (by decide)

/-- Modelled from the spec: the claimed per-axis precedence
`explicit override → provider reduction (query failure folds to
unspecified) → hard default NEVER`, for comparison with the code's
resolution functions. -/
def resolvePolicySpec (explicitOverride : AaudioPolicy)
    (query : Option (List AudioMMapPolicyInfo)) : AaudioPolicy :=
  if explicitOverride ≠ .unspecified then explicitOverride
  else
    let fromProvider :=
      match query with
      | some infos => getAAudioPolicy infos
      | none => .unspecified
    if fromProvider ≠ .unspecified then fromProvider else .never

/-- C2 counterexample: with the explicit process-level override set to
ALWAYS and the exclusive-axis provider reporting NEVER, the code
resolves the exclusive axis to NEVER while the claimed precedence would
give ALWAYS — the override does not win on the exclusive axis. -/
theorem exclusive_override_counterexample :
    resolveExclusiveMMapPolicy
      { globalPolicy := .always
        defaultQuery := none
        exclusiveQuery := some [⟨.never⟩]
        baseValidate := .ok
        openResult := fun _ => .ok } = .never
    ∧ resolvePolicySpec .always (some [⟨.never⟩]) = .always := by
  exact ⟨rfl, rfl⟩

/-- C2 amended: the general axis follows the claimed precedence
(override → provider reduction → default NEVER), but the exclusive axis
consults no explicit override: it is resolved exactly as the claimed
precedence with the override taken to be unspecified. -/
theorem policy_precedence_amended (env : Env) :
    resolveMMapPolicy env
      = resolvePolicySpec env.globalPolicy env.defaultQuery
    ∧ resolveExclusiveMMapPolicy env
      = resolvePolicySpec .unspecified env.exclusiveQuery := by
  constructor
  · by_cases h : env.globalPolicy = .unspecified
    · cases hq : env.defaultQuery with
      | none =>
        simp [resolveMMapPolicy, resolvePolicySpec, h, hq,
              AAUDIO_MMAP_POLICY_DEFAULT]
      | some infos =>
        by_cases h2 : getAAudioPolicy infos = .unspecified <;>
          simp [resolveMMapPolicy, resolvePolicySpec, h, hq, h2,
                AAUDIO_MMAP_POLICY_DEFAULT]
    · simp [resolveMMapPolicy, resolvePolicySpec, h,
            AAUDIO_MMAP_POLICY_DEFAULT]
  · cases hq : env.exclusiveQuery with
    | none =>
      simp [resolveExclusiveMMapPolicy, resolvePolicySpec, hq,
            AAUDIO_MMAP_EXCLUSIVE_POLICY_DEFAULT]
    | some infos =>
      by_cases h2 : getAAudioPolicy infos = .unspecified <;>
        simp [resolveExclusiveMMapPolicy, resolvePolicySpec, hq, h2,
              AAUDIO_MMAP_EXCLUSIVE_POLICY_DEFAULT]

/-- An environment whose general policy override is ALWAYS (which
disallows the legacy path). -/
def envAlwaysPolicy : Env where
  globalPolicy := .always
  defaultQuery := none
  exclusiveQuery := none
  baseValidate := .ok
  openResult := fun _ => .ok

/-- C3 counterexample: a request for which both paths end up disallowed
(general policy ALWAYS blocks legacy; non-low-latency performance mode
blocks MMAP) fails with the same `AAUDIO_ERROR_ILLEGAL_ARGUMENT` code
used for bad enum values — there is no distinct no-backend code. -/
theorem no_backend_code_counterexample :
    (build false envAlwaysPolicy
      ⟨.output, .shared, .none, .none, .otherPreset 0, .default,
        false, 0⟩).result = .errorIllegalArgument := by decide

/-- C3 amended: when, after the sharing-mode step and the gating steps,
both the fast-path flag and the compat-path flag are false, `build`
fails with `AAUDIO_ERROR_ILLEGAL_ARGUMENT`; the code has no distinct
no-backend error code (the code is shared with bad-enum failures). -/
theorem no_backend_failure_amended (env : Env) (b : AudioStreamBuilder)
    (hval : validate env.baseValidate b = .ok)
    (hmm : allowMMapOf env (applySharingDowngrade env b) = false)
    (hleg : allowLegacyOf env = false) :
    (build false env b).result = .errorIllegalArgument := by
  unfold build buildCore
  rw [hval]
  simp [hmm, hleg]

/-- Witness for the amended C3. -/
theorem no_backend_failure_amended_witness :
    (build false envAlwaysPolicy
      ⟨.input, .shared, .powerSaving, .none, .otherPreset 0, .default,
        false, 0⟩).result = .errorIllegalArgument :=
  no_backend_failure_amended envAlwaysPolicy _ (by decide) (by decide)
    (by decide)

/-- C4 counterexample: a playback request with input preset
voice-communication and unspecified privacy yields effective privacy
TRUE — the inference never consults the direction, contrary to the
claim that such a request yields false. -/
theorem privacy_playback_counterexample :
    (build false envLegacyOk
      ⟨.output, .shared, .none, .none, .voiceCommunication, .default,
        false, 0⟩).req.privacySensitive = true := by decide

/-- C4 amended: for every request reaching the privacy step, the
effective privacy flag is true exactly when the privacy field is
explicitly enabled, or is unspecified with input preset camcorder or
voice-communication — regardless of direction; explicitly disabled
yields false regardless of preset. -/
theorem privacy_inference_amended (env : Env) (b : AudioStreamBuilder)
    (hval : validate env.baseValidate b = .ok)
    (hback : ¬(allowMMapOf env (applySharingDowngrade env b) = false
               ∧ allowLegacyOf env = false)) :
    ((build false env b).req.privacySensitive = true
      ↔ (b.privacySensitiveReq = PrivacySensitiveReq.enabled
         ∨ (b.privacySensitiveReq = PrivacySensitiveReq.default
            ∧ (b.inputPreset = .camcorder
               ∨ b.inputPreset = .voiceCommunication)))) := by
  rw [build_past_checks env b hval hback, openWithFallback_req,
      applyPrivacy_privacySensitive, applySharingDowngrade_privacyReq,
      applySharingDowngrade_inputPreset]
  cases b.privacySensitiveReq <;> simp [privacyFromReqAndPreset]

/-- Witness for the amended C4 at a capture request with preset
camcorder and unspecified privacy. -/
theorem privacy_inference_amended_witness :
    ((build false envLegacyOk
        ⟨.input, .shared, .none, .none, .camcorder, .default, false,
          0⟩).req.privacySensitive = true
      ↔ (PrivacySensitiveReq.default = PrivacySensitiveReq.enabled
         ∨ (PrivacySensitiveReq.default = PrivacySensitiveReq.default
            ∧ (InputPreset.camcorder = .camcorder
               ∨ InputPreset.camcorder = .voiceCommunication)))) :=
  privacy_inference_amended envLegacyOk _ (by decide) (by decide)

/-! ## More helper lemmas: build exit paths and openWithFallback shapes -/

theorem build_validate_fail (env : Env) (b : AudioStreamBuilder)
    (h : validate env.baseValidate b ≠ .ok) :
    build false env b = ⟨validate env.baseValidate b, b, none, []⟩ := by
  unfold build
  simp [h]

theorem build_no_backend (env : Env) (b : AudioStreamBuilder)
    (hval : validate env.baseValidate b = .ok)
    (hmm : allowMMapOf env (applySharingDowngrade env b) = false)
    (hleg : allowLegacyOf env = false) :
    build false env b
      = ⟨.errorIllegalArgument, applySharingDowngrade env b, none, []⟩ := by
  unfold build buildCore
  rw [hval]
  simp [hmm, hleg]

theorem builder_createStream_mmap (d : Direction) (v : StreamVariant)
    (h : builder_createStream d true = some v) : v.isMMap = true := by
  cases d <;> simp [builder_createStream] at h <;> (subst h; rfl)

theorem builder_createStream_legacy (d : Direction) (v : StreamVariant)
    (h : builder_createStream d false = some v) : v.isMMap = false := by
  cases d <;> simp [builder_createStream] at h <;> (subst h; rfl)

theorem openWithFallback_fail_terminal (env : Env) (c : AudioStreamBuilder)
    (am al : Bool) (v1 : StreamVariant)
    (h1 : builder_createStream c.direction am = some v1)
    (hfail : env.openResult v1 ≠ .ok)
    (hstop : v1.isMMap = false ∨ al = false) :
    openWithFallback env c am al
      = ⟨env.openResult v1, c, none,
         [.created v1, .openAttempt v1 (env.openResult v1)]⟩ := by
  unfold openWithFallback
  rw [h1]
  rcases hstop with h | h <;> simp [hfail, h]

theorem openWithFallback_fail_retry (env : Env) (c : AudioStreamBuilder)
    (v1 v2 : StreamVariant)
    (h1 : builder_createStream c.direction true = some v1)
    (h2 : builder_createStream c.direction false = some v2)
    (hfail : env.openResult v1 ≠ .ok)
    (hvm : v1.isMMap = true) :
    openWithFallback env c true true
      = if env.openResult v2 = .ok then
          ⟨.ok, c, some v2,
           [.created v1, .openAttempt v1 (env.openResult v1),
            .created v2, .openAttempt v2 (env.openResult v2)]⟩
        else
          ⟨env.openResult v2, c, none,
           [.created v1, .openAttempt v1 (env.openResult v1),
            .created v2, .openAttempt v2 (env.openResult v2)]⟩ := by
  unfold openWithFallback
  rw [h1]
  simp only [Option.some.injEq]
  rw [if_neg hfail]
  simp only [hvm, true_and, if_true]
  rw [h2]
  split <;> simp_all

/-- An environment whose exclusive-axis provider reports NEVER and whose
general policy is left unspecified (it resolves to the NEVER default, so
only the legacy path is allowed). -/
def envExclusiveNever : Env where
  globalPolicy := .unspecified
  defaultQuery := none
  exclusiveQuery := some [⟨.never⟩]
  baseValidate := .ok
  openResult := fun _ => .ok

/-- C6 counterexample: with resolved exclusive policy NEVER and an
exclusive-sharing request that fails validation (unknown performance
mode), `build` fails and the sharing mode is NOT downgraded — the
correction is not observable on every failing build. -/
theorem sharing_downgrade_counterexample :
    resolveExclusiveMMapPolicy envExclusiveNever = .never
    ∧ (build false envExclusiveNever
        ⟨.output, .exclusive, .invalid 99, .none, .otherPreset 0,
          .default, false, 0⟩).result = .errorIllegalArgument
    ∧ (build false envExclusiveNever
        ⟨.output, .exclusive, .invalid 99, .none, .otherPreset 0,
          .default, false, 0⟩).req.sharingMode = .exclusive := by decide

/-- C6 amended: for every request that passes validation, with sharing
mode EXCLUSIVE and resolved exclusive policy NEVER, `build` writes
SHARED back into the request, observable however the rest of the build
ends (success or any later failure). -/
theorem sharing_downgrade_amended (env : Env) (b : AudioStreamBuilder)
    (hval : validate env.baseValidate b = .ok)
    (hsh : b.sharingMode = .exclusive)
    (hpol : resolveExclusiveMMapPolicy env = .never) :
    (build false env b).req.sharingMode = .shared := by
  have hb1 : (applySharingDowngrade env b).sharingMode = .shared := by
    unfold applySharingDowngrade
    rw [if_pos ⟨hsh, hpol⟩]
  by_cases hnb : allowMMapOf env (applySharingDowngrade env b) = false
      ∧ allowLegacyOf env = false
  · rw [build_no_backend env b hval hnb.1 hnb.2]
    exact hb1
  · rw [build_past_checks env b hval hnb, openWithFallback_req,
        applyPrivacy_sharingMode]
    exact hb1

/-- Witness for the amended C6: the request passes validation, build
succeeds on the legacy path, and the returned request is SHARED. -/
theorem sharing_downgrade_amended_witness :
    (build false envExclusiveNever
      ⟨.output, .exclusive, .none, .none, .otherPreset 0, .default,
        false, 0⟩).req.sharingMode = .shared :=
  sharing_downgrade_amended envExclusiveNever _ (by decide) rfl (by decide)

theorem openWithFallback_created_legacy (env : Env)
    (c : AudioStreamBuilder) (al : Bool) :
    ∀ v, Event.created v ∈ (openWithFallback env c false al).events →
      v.isMMap = false := by
  intro v hv
  cases hd : c.direction with
  | input =>
    by_cases hr : env.openResult .record = .ok <;>
      simp [openWithFallback, builder_createStream, hd, hr,
            StreamVariant.isMMap] at hv <;>
      simp [hv, StreamVariant.isMMap]
  | output =>
    by_cases hr : env.openResult .track = .ok <;>
      simp [openWithFallback, builder_createStream, hd, hr,
            StreamVariant.isMMap] at hv <;>
      simp [hv, StreamVariant.isMMap]
  | invalid n =>
    simp [openWithFallback, builder_createStream, hd] at hv

/-- C7: when the performance mode is not LOW_LATENCY, or a session id is
requested, the gating forces the MMAP flag to false (it only narrows:
whatever the general policy, including ALWAYS), and consequently no
MMAP (fastpath) stream is ever created by `build` — in particular the
first created variant is never fastpath. -/
theorem fastpath_gating (env : Env) (b : AudioStreamBuilder)
    (hgate : b.performanceMode ≠ .lowLatency ∨ b.sessionId ≠ .none) :
    allowMMapOf env (applySharingDowngrade env b) = false
    ∧ (∀ v, Event.created v ∈ (build false env b).events →
        v.isMMap = false) := by
  have hmm : allowMMapOf env (applySharingDowngrade env b) = false := by
    unfold allowMMapOf
    rw [applySharingDowngrade_performanceMode,
        applySharingDowngrade_sessionId]
    rcases hgate with h | h <;> simp [h]
  refine ⟨hmm, ?_⟩
  intro v hv
  by_cases hval : validate env.baseValidate b = .ok
  · by_cases hleg : allowLegacyOf env = false
    · rw [build_no_backend env b hval hmm hleg] at hv
      simp at hv
    · have hnb : ¬(allowMMapOf env (applySharingDowngrade env b) = false
                   ∧ allowLegacyOf env = false) := fun hc => hleg hc.2
      rw [build_past_checks env b hval hnb, hmm] at hv
      exact openWithFallback_created_legacy env _ _ v hv
  · rw [build_validate_fail env b hval] at hv
    simp at hv

/-- Witness for C7: a power-saving request under a permissive general
policy creates only the legacy variant. -/
theorem fastpath_gating_witness :
    allowMMapOf envLegacyOk (applySharingDowngrade envLegacyOk
      ⟨.input, .shared, .powerSaving, .none, .otherPreset 0, .default,
        false, 0⟩) = false
    ∧ (∀ v, Event.created v ∈ (build false envLegacyOk
        ⟨.input, .shared, .powerSaving, .none, .otherPreset 0, .default,
          false, 0⟩).events → v.isMMap = false) :=
  fastpath_gating envLegacyOk _ (.inl (by decide))

/-- An environment with the general override ALWAYS (blocking the legacy
path) and the exclusive-axis provider reporting NEVER. -/
def envAlwaysGeneralNeverExclusive : Env where
  globalPolicy := .always
  defaultQuery := none
  exclusiveQuery := some [⟨.never⟩]
  baseValidate := .ok
  openResult := fun _ => .ok

/-- C8 counterexample: a valid exclusive-sharing, non-low-latency
request under general policy ALWAYS and exclusive policy NEVER makes
`build` return the decision-engine (no-backend) error AFTER having
written the sharing-mode downgrade into the request — the abort is not
free of side effects. -/
theorem error_side_effect_counterexample :
    (build false envAlwaysGeneralNeverExclusive
      ⟨.output, .exclusive, .none, .none, .otherPreset 0, .default,
        false, 0⟩).result = .errorIllegalArgument
    ∧ (build false envAlwaysGeneralNeverExclusive
        ⟨.output, .exclusive, .none, .none, .otherPreset 0, .default,
          false, 0⟩).req.sharingMode = .shared := by decide

/-- C8 amended: a validator error aborts with the request completely
unchanged; the decision-engine no-backend error aborts before the
privacy write (privacy flag unchanged) but after the sharing-mode step,
so the returned request is exactly the downgraded request. -/
theorem error_side_effects_amended (env : Env) (b : AudioStreamBuilder) :
    (validate env.baseValidate b ≠ .ok → (build false env b).req = b)
    ∧ (validate env.baseValidate b = .ok →
       allowMMapOf env (applySharingDowngrade env b) = false →
       allowLegacyOf env = false →
         (build false env b).result = .errorIllegalArgument
         ∧ (build false env b).req = applySharingDowngrade env b
         ∧ (build false env b).req.privacySensitive
             = b.privacySensitive) := by
  constructor
  · intro h
    rw [build_validate_fail env b h]
  · intro hval hmm hleg
    rw [build_no_backend env b hval hmm hleg]
    exact ⟨rfl, rfl, applySharingDowngrade_privacySensitive env b⟩

/-- Witness for the amended C8: one validator-failure input returning
the request untouched, and one no-backend input returning the
IllegalArgument code with the privacy flag untouched. -/
theorem error_side_effects_amended_witness :
    (build false envExclusiveNever
      ⟨.output, .exclusive, .invalid 99, .none, .otherPreset 0, .default,
        false, 0⟩).req
      = ⟨.output, .exclusive, .invalid 99, .none, .otherPreset 0,
          .default, false, 0⟩
    ∧ (build false envAlwaysGeneralNeverExclusive
        ⟨.output, .exclusive, .none, .none, .otherPreset 0, .default,
          false, 0⟩).result = .errorIllegalArgument :=
  ⟨(error_side_effects_amended envExclusiveNever _).1 (by decide),
   ((error_side_effects_amended envAlwaysGeneralNeverExclusive _).2
      (by decide) (by decide) (by decide)).1⟩

/-- C1: the open-with-fallback protocol.  (a) When the first created
variant is fastpath (MMAP) and its open fails while the compat (legacy)
path is allowed, the whole event trace is exactly: one fastpath creation
and open attempt followed by one compat creation and one compat open
attempt — so never a third open attempt; if that compat open succeeds,
`build` returns OK with a handle whose variant is compat (non-MMAP).
(b) When the first created variant is compat, a failed open is terminal
with no retry.  (c) When the compat path is not allowed, a failed
fastpath open is terminal with no retry. -/
theorem fallback_protocol (env : Env) (b : AudioStreamBuilder)
    (hval : validate env.baseValidate b = .ok) :
    (∀ v1 v2,
      builder_createStream b.direction true = some v1 →
      builder_createStream b.direction false = some v2 →
      allowMMapOf env (applySharingDowngrade env b) = true →
      allowLegacyOf env = true →
      env.openResult v1 ≠ .ok →
        v1.isMMap = true ∧ v2.isMMap = false
        ∧ (build false env b).events
            = [.created v1, .openAttempt v1 (env.openResult v1),
               .created v2, .openAttempt v2 (env.openResult v2)]
        ∧ (env.openResult v2 = .ok →
            (build false env b).result = .ok
            ∧ (build false env b).handle = some v2)
        ∧ (env.openResult v2 ≠ .ok →
            (build false env b).result = env.openResult v2
            ∧ (build false env b).handle = none))
    ∧ (∀ v1,
      builder_createStream b.direction false = some v1 →
      allowMMapOf env (applySharingDowngrade env b) = false →
      allowLegacyOf env = true →
      env.openResult v1 ≠ .ok →
        (build false env b).events
            = [.created v1, .openAttempt v1 (env.openResult v1)]
        ∧ (build false env b).result = env.openResult v1
        ∧ (build false env b).handle = none)
    ∧ (∀ v1,
      builder_createStream b.direction true = some v1 →
      allowMMapOf env (applySharingDowngrade env b) = true →
      allowLegacyOf env = false →
      env.openResult v1 ≠ .ok →
        (build false env b).events
            = [.created v1, .openAttempt v1 (env.openResult v1)]
        ∧ (build false env b).result = env.openResult v1
        ∧ (build false env b).handle = none) := by
  have hdir2 : (applyPrivacy (applySharingDowngrade env b)).direction
      = b.direction := by
    rw [applyPrivacy_direction, applySharingDowngrade_direction]
  refine ⟨?_, ?_, ?_⟩
  · intro v1 v2 h1 h2 hmm hleg hfail
    have hvm := builder_createStream_mmap _ _ h1
    have hvl := builder_createStream_legacy _ _ h2
    have hback : ¬(allowMMapOf env (applySharingDowngrade env b) = false
                   ∧ allowLegacyOf env = false) := by simp [hmm]
    have h1' : builder_createStream
        (applyPrivacy (applySharingDowngrade env b)).direction true
        = some v1 := by rw [hdir2]; exact h1
    have h2' : builder_createStream
        (applyPrivacy (applySharingDowngrade env b)).direction false
        = some v2 := by rw [hdir2]; exact h2
    have hbuild := build_past_checks env b hval hback
    rw [hmm, hleg] at hbuild
    rw [hbuild, openWithFallback_fail_retry env _ v1 v2 h1' h2' hfail hvm]
    refine ⟨hvm, hvl, ?_, ?_, ?_⟩ <;>
      by_cases hr2 : env.openResult v2 = .ok <;>
      simp [hr2]
  · intro v1 h1 hmm hleg hfail
    have hback : ¬(allowMMapOf env (applySharingDowngrade env b) = false
                   ∧ allowLegacyOf env = false) := by simp [hleg]
    have hvl := builder_createStream_legacy _ _ h1
    have h1' : builder_createStream
        (applyPrivacy (applySharingDowngrade env b)).direction false
        = some v1 := by rw [hdir2]; exact h1
    have hbuild := build_past_checks env b hval hback
    rw [hmm, hleg] at hbuild
    rw [hbuild,
        openWithFallback_fail_terminal env _ false true v1 h1' hfail
          (.inl hvl)]
    exact ⟨rfl, rfl, rfl⟩
  · intro v1 h1 hmm hleg hfail
    have hback : ¬(allowMMapOf env (applySharingDowngrade env b) = false
                   ∧ allowLegacyOf env = false) := by simp [hmm]
    have h1' : builder_createStream
        (applyPrivacy (applySharingDowngrade env b)).direction true
        = some v1 := by rw [hdir2]; exact h1
    have hbuild := build_past_checks env b hval hback
    rw [hmm, hleg] at hbuild
    rw [hbuild,
        openWithFallback_fail_terminal env _ true false v1 h1' hfail
          (.inr rfl)]
    exact ⟨rfl, rfl, rfl⟩

/-- An environment where every MMAP open fails and every legacy open
succeeds, under a permissive (AUTO) general policy. -/
def envFastFails : Env where
  globalPolicy := .auto
  defaultQuery := none
  exclusiveQuery := none
  baseValidate := .ok
  openResult := fun v => if v.isMMap then .errorCode (-899) else .ok

/-- A low-latency capture request with no session id. -/
def bFastReq : AudioStreamBuilder :=
  ⟨.input, .shared, .lowLatency, .none, .otherPreset 0, .default,
    false, 0⟩

/-- Witness for C1: the fastpath capture stream fails to open, exactly
one legacy creation and open attempt follows and succeeds, and the
returned handle is the legacy (compat) variant. -/
theorem fallback_protocol_witness :
    (build false envFastFails bFastReq).events
      = [.created .internalCapture,
         .openAttempt .internalCapture
           (envFastFails.openResult .internalCapture),
         .created .record,
         .openAttempt .record (envFastFails.openResult .record)]
    ∧ (build false envFastFails bFastReq).result = .ok
    ∧ (build false envFastFails bFastReq).handle = some .record := by
  have h := (fallback_protocol envFastFails bFastReq (by decide)).1
    .internalCapture .record (by decide) (by decide) (by decide)
    (by decide) (by decide)
  exact ⟨h.2.2.1, (h.2.2.2.1 (by decide)).1, (h.2.2.2.1 (by decide)).2⟩
